import Mathlib

/-!
Shallow embedding of the earthwork cross-section / volume engine of `app.py`.

The engine reads a table of stations (S.No, Chainage, Finished Roadway Width,
Finished Vertical Height, Original Roadway Width, Area Coefficient, Cutting
slope), computes a per-station cross-sectional area, parses chainages by
stripping `+` characters, and integrates volumes between adjacent stations by
the average-end-area rule.  Numeric cells are modelled as exact rationals; the
cutting-slope trigonometry is modelled over the reals.
-/

namespace Earthwork

/-- A cell of the `Cutting slope` column as delivered by the spreadsheet
reader: either empty (NaN), a number, or arbitrary text. -/
inductive CellValue where
  | missing : CellValue
  | num : ℚ → CellValue
  | text : String → CellValue
deriving DecidableEq, Repr

/-- One row of the input table after column alignment (`app.py` lines
117-122).  The `S.No` column is never used in computation and is omitted;
`chainage` keeps its raw string form because the code parses it later. -/
structure Row where
  chainage : String
  fw : ℚ
  fh : ℚ
  ow : ℚ
  ac : ℚ
  angle : CellValue
deriving DecidableEq, Repr

/-! ### Chainage parsing (`app.py` line 128)

`data['Chainage'].astype(str).str.replace("+", "").astype(float)`: every `+`
character is removed, then the remainder is parsed as a decimal number.
`parseDecimal` models Python `float()` on the plain decimal forms
`[-]digits[.digits]` that survey chainages use; anything else is `none`
(in the program this raises and aborts the run). -/

def digitVal (c : Char) : Option ℕ :=
  if c.isDigit then some (c.toNat - 48) else none

def parseNatAux : ℕ → List Char → Option ℕ
  | acc, [] => some acc
  | acc, c :: cs =>
    match digitVal c with
    | some d => parseNatAux (acc * 10 + d) cs
    | none => none

def parseNatDigits (l : List Char) : Option ℕ :=
  if l.isEmpty then none else parseNatAux 0 l

def parseUnsigned (l : List Char) : Option ℚ :=
  match l.splitOn '.' with
  | [intPart] => (parseNatDigits intPart).map (fun n => (n : ℚ))
  | [intPart, fracPart] =>
    match parseNatDigits intPart, parseNatDigits fracPart with
    | some n, some f => some ((n : ℚ) + (f : ℚ) / (10 : ℚ) ^ fracPart.length)
    | _, _ => none
  | _ => none

def parseDecimal (s : String) : Option ℚ :=
  match s.toList with
  | '-' :: rest => (parseUnsigned rest).map (fun q => -q)
  | l => parseUnsigned l

/-- `str.replace("+", "")`: remove every `+` character. -/
def stripPlus (s : String) : String :=
  ⟨s.toList.filter (fun c => c ≠ '+')⟩

/-- Chainage parse: strip `+`, then numeric parse. -/
def parseChainage (s : String) : Option ℚ :=
  parseDecimal (stripPlus s)

/-! ### Area (`app.py` lines 125-127, repeated at line 76) -/

/-- `Area (m²)` column: `Area Coefficient * (Finished Roadway Width -
Original Roadway Width) * Finished Vertical Height`. -/
def areaRow (r : Row) : ℚ :=
  r.ac * (r.fw - r.ow) * r.fh

/-! ### Cutting-slope handling (`app.py` lines 67-73)

```
angle_deg = float(angle_deg) if pd.notna(angle_deg) else 75
if angle_deg == 0:
    raise ValueError("Angle cannot be zero.")
slope = 1 / np.tan(np.radians(angle_deg))
```
wrapped in `try: ... except: return` — any failure silently skips the
station's plot.  `coerceAngle` is the first line (`none` = `float()` raised);
`resolveAngle` adds the zero check; `none` overall means the station is
skipped with no error surfaced to the caller. -/

def coerceAngle : CellValue → Option ℚ
  | CellValue.missing => some 75
  | CellValue.num q => some q
  | CellValue.text s => parseDecimal s

def resolveAngle (c : CellValue) : Option ℚ :=
  (coerceAngle c).bind (fun a => if a = 0 then none else some a)

/-- `slope = 1 / tan(radians(angle_deg))`, over the reals. -/
noncomputable def slope (angleDeg : ℝ) : ℝ :=
  1 / Real.tan (angleDeg * Real.pi / 180)

/-! ### Cross-section geometry (`app.py` lines 75-91) -/

/-- `h1_coef = (ac - 0.5) * 2`. -/
def h1Coef (ac : ℚ) : ℚ :=
  (ac - 1/2) * 2

/-- The four x/y vertex lists of one subplot: finished ground (`fg`) and
original ground (`og`).  The slope value is a parameter because the code
computes it by floating-point trigonometry from the resolved angle. -/
structure Geometry where
  fgX : List ℚ
  fgY : List ℚ
  ogX : List ℚ
  ogY : List ℚ
deriving DecidableEq, Repr

def geometryFrom (fw fh ow ac slopeVal : ℚ) : Geometry :=
  let x1 := -fw / 2
  let x3 := fw / 2
  let x4 := fw / 2 + slopeVal * fh
  let x6 := x1 + ow
  let x7 := x6 + h1Coef ac * fh * slopeVal
  { fgX := [x1, 0, x3, x4]
    fgY := [0, 0, 0, fh]
    ogX := [x1, x6, x7, x4]
    ogY := [0, 0, h1Coef ac * fh, fh] }

/-- `ax.fill(og_x + fg_x[::-1], ...)`: x-coordinates of the filled cut/fill
boundary — original ground forward, then finished ground reversed. -/
def fillX (g : Geometry) : List ℚ :=
  g.ogX ++ g.fgX.reverse

/-- y-coordinates of the filled boundary, same order. -/
def fillY (g : Geometry) : List ℚ :=
  g.ogY ++ g.fgY.reverse

/-- Finished-ground polyline as points. -/
def finishedProfile (g : Geometry) : List (ℚ × ℚ) :=
  g.fgX.zip g.fgY

/-- Original-ground polyline as points. -/
def originalProfile (g : Geometry) : List (ℚ × ℚ) :=
  g.ogX.zip g.ogY

/-- Filled cut/fill boundary as points. -/
def fillProfile (g : Geometry) : List (ℚ × ℚ) :=
  (fillX g).zip (fillY g)

/-- `plot_chainage_subplot` produces geometry exactly when the angle
resolves; there is no other failure path in the function body, so a station
skipped by the `except: return` yields `none`, silently. -/
def stationGeometry (r : Row) (slopeVal : ℚ) : Option Geometry :=
  (resolveAngle r.angle).map (fun _ => geometryFrom r.fw r.fh r.ow r.ac slopeVal)

/-! ### Volume integration (`app.py` lines 130-137, 234)

```
volume_list = [0.0]
for i in range(1, len(data)):
    ch1, ch2 = chainage_values[i-1], chainage_values[i]
    a1, a2 = area[i-1], area[i]
    vol = ((a1 + a2) / 2) * (ch2 - ch1)
    volume_list.append(vol)
total_volume = sum(volume_list)
``` -/

/-- The per-adjacent-pair volumes, one `(chainage, area)` pair per station. -/
def segVolumes : List (ℚ × ℚ) → List ℚ
  | (c1, a1) :: (c2, a2) :: rest =>
    ((a1 + a2) / 2) * (c2 - c1) :: segVolumes ((c2, a2) :: rest)
  | _ => []

/-- The `Volume (m³)` column: a leading `0.0` for the first station, then one
entry per adjacent pair. -/
def volumeList (l : List (ℚ × ℚ)) : List ℚ :=
  0 :: segVolumes l

/-! ### Table-level pipeline (`app.py` lines 125-137, 227-241) -/

/-- Area column for the whole table. -/
def areasOf (rows : List Row) : List ℚ :=
  rows.map areaRow

/-- Parsed chainage column; `none` when any chainage fails to parse (the
program raises and the whole run aborts). -/
def chainagesOf : List Row → Option (List ℚ)
  | [] => some []
  | r :: rs =>
    match parseChainage r.chainage, chainagesOf rs with
    | some c, some cs => some (c :: cs)
    | _, _ => none

/-- Volume column for the whole table. -/
def volumeColumn (rows : List Row) : Option (List ℚ) :=
  (chainagesOf rows).map (fun chs => volumeList (chs.zip (areasOf rows)))

/-- `total_volume = minimal_df["Volume"].sum()`. -/
def totalVolumeOf (rows : List Row) : Option ℚ :=
  (volumeColumn rows).map (fun l => l.sum)

/-- Projection of a row onto every column except `Cutting slope`. -/
def stripAngle (r : Row) : String × ℚ × ℚ × ℚ × ℚ :=
  (r.chainage, r.fw, r.fh, r.ow, r.ac)

/-! ### Helper lemmas -/

/-- `segVolumes` produces one entry per adjacent pair of stations. -/
theorem segVolumes_length : ∀ l : List (ℚ × ℚ), (segVolumes l).length = l.length - 1
  | [] => rfl
  | [_] => rfl
  | (_, _) :: (c2, a2) :: rest => by
    rw [segVolumes]
    simp [segVolumes_length ((c2, a2) :: rest)]

/-- Rows that agree outside the `Cutting slope` column have the same area and
the same chainage string. -/
theorem stripAngle_congr {r r' : Row} (h : stripAngle r = stripAngle r') :
    areaRow r = areaRow r' ∧ r.chainage = r'.chainage := by
  cases r
  cases r'
  simp only [stripAngle, Prod.mk.injEq] at h
  obtain ⟨h1, h2, h3, h4, h5⟩ := h
  simp [areaRow, h1, h2, h3, h4, h5]

/-- Tables that agree outside the `Cutting slope` column have the same area
column and the same parsed chainage column. -/
theorem map_stripAngle_congr :
    ∀ {l1 l2 : List Row}, l1.map stripAngle = l2.map stripAngle →
      areasOf l1 = areasOf l2 ∧ chainagesOf l1 = chainagesOf l2 := by
  intro l1
  induction l1 with
  | nil =>
    intro l2 h
    rw [List.map_nil, eq_comm, List.map_eq_nil_iff] at h
    subst h
    exact ⟨rfl, rfl⟩
  | cons r rs ih =>
    intro l2 h
    cases l2 with
    | nil => simp at h
    | cons r' rs' =>
      simp only [List.map_cons, List.cons.injEq] at h
      obtain ⟨hh, ht⟩ := h
      obtain ⟨harea, hch⟩ := stripAngle_congr hh
      obtain ⟨has, hchs⟩ := ih ht
      constructor
      · simp [areasOf, harea]
        simpa [areasOf] using has
      · simp only [chainagesOf, hch, hchs]

/-! ### Claim theorems -/

/-- Claim C1: each segment volume equals `deltaChainage * (area[i-1] +
area[i]) / 2`, the total volume is the sum of the segment volumes (the
leading `0.0` of the Volume column contributes nothing), and on the two-station
scenario `(ch=0, fw=10, fh=2, ow=6, ac=0.5, angle=90)` /
`(ch=100, ...)` each area is `4` and the total volume is `400`. -/
theorem C1_end_area_volume :
    (∀ (c1 a1 c2 a2 : ℚ) (rest : List (ℚ × ℚ)),
      segVolumes ((c1, a1) :: (c2, a2) :: rest) =
        (c2 - c1) * ((a1 + a2) / 2) :: segVolumes ((c2, a2) :: rest))
    ∧ (∀ l : List (ℚ × ℚ), (volumeList l).sum = (segVolumes l).sum)
    ∧ areasOf [⟨"0", 10, 2, 6, 1/2, CellValue.num 90⟩,
               ⟨"100", 10, 2, 6, 1/2, CellValue.num 90⟩] = [4, 4]
    ∧ totalVolumeOf [⟨"0", 10, 2, 6, 1/2, CellValue.num 90⟩,
                     ⟨"100", 10, 2, 6, 1/2, CellValue.num 90⟩] = some 400 := by
  have h0 : parseChainage "0" = some 0 := by decide
  have h100 : parseChainage "100" = some 100 := by decide
  refine ⟨?_, ?_, ?_, ?_⟩
  · intro c1 a1 c2 a2 rest
    rw [segVolumes, mul_comm]
  · intro l
    simp [volumeList]
  · norm_num [areasOf, areaRow]
  · simp [totalVolumeOf, volumeColumn, chainagesOf, areasOf, volumeList,
      segVolumes, areaRow, h0, h100]
    norm_num

/-- Claim C2 counterexample: a row with `ow > fw` but `fh = 0` has area `0`,
not a negative area, so "when originalWidth > finishedWidth the area is
negative" fails as stated. -/
theorem C2_sign_counterexample :
    (Row.mk "0" 10 0 12 (1/2) (CellValue.num 90)).fw
      < (Row.mk "0" 10 0 12 (1/2) (CellValue.num 90)).ow
    ∧ ¬ areaRow (Row.mk "0" 10 0 12 (1/2) (CellValue.num 90)) < 0 := by
  constructor
  · norm_num
  · norm_num [areaRow]

/-- Claim C2 (amended): the area is `ac * (fw - ow) * fh`, it does not depend
on the `Cutting slope` cell (and `h1Coef` never enters it), and when
`ow > fw` with `ac > 0` and `fh > 0` the area is negative — the formula
preserves sign and never clamps to zero. -/
theorem C2_area_formula :
    (∀ r : Row, areaRow r = r.ac * (r.fw - r.ow) * r.fh)
    ∧ (∀ (r : Row) (c c' : CellValue),
        areaRow { r with angle := c } = areaRow { r with angle := c' })
    ∧ (∀ r : Row, r.fw < r.ow → 0 < r.ac → 0 < r.fh → areaRow r < 0) := by
  refine ⟨fun r => rfl, fun r c c' => rfl, ?_⟩
  intro r how hac hfh
  have hsub : r.fw - r.ow < 0 := sub_neg.mpr how
  exact mul_neg_of_neg_of_pos (mul_neg_of_pos_of_neg hac hsub) hfh

/-- Witness for the amended Claim C2 at a concrete fill row. -/
theorem C2_area_formula_witness :
    areaRow (Row.mk "0" 10 2 12 1 (CellValue.num 90)) < 0 :=
  C2_area_formula.2.2 _ (by norm_num) (by norm_num) (by norm_num)

/-- Claim C3 counterexample: with decreasing chainages `[100, 50]` (areas
`4` each) the program raises nothing and emits the negative segment volume
`-200`; it does not fail and does not produce a zero-volume segment. -/
theorem C3_counterexample :
    volumeColumn [⟨"100", 10, 2, 6, 1/2, CellValue.num 90⟩,
                  ⟨"50", 10, 2, 6, 1/2, CellValue.num 90⟩] = some [0, -200]
    ∧ totalVolumeOf [⟨"100", 10, 2, 6, 1/2, CellValue.num 90⟩,
                     ⟨"50", 10, 2, 6, 1/2, CellValue.num 90⟩] = some (-200)
    ∧ ((-200 : ℚ) < 0) := by
  have h100 : parseChainage "100" = some 100 := by decide
  have h50 : parseChainage "50" = some 50 := by decide
  refine ⟨?_, ?_, by norm_num⟩
  · simp [volumeColumn, chainagesOf, areasOf, volumeList, segVolumes,
      areaRow, h100, h50]
    norm_num
  · simp [totalVolumeOf, volumeColumn, chainagesOf, areasOf, volumeList,
      segVolumes, areaRow, h100, h50]
    norm_num

/-- Claim C3 (amended): the volume loop performs no monotonicity check; for
any adjacent pair it emits `(area average) * (ch2 - ch1)` regardless of sign,
so a decreasing pair with positive average area yields a negative volume
silently. -/
theorem C3_no_monotonicity_check :
    ∀ c1 a1 c2 a2 : ℚ,
      segVolumes [(c1, a1), (c2, a2)] = [((a1 + a2) / 2) * (c2 - c1)]
      ∧ (c2 < c1 → 0 < (a1 + a2) / 2 → ((a1 + a2) / 2) * (c2 - c1) < 0) := by
  intro c1 a1 c2 a2
  refine ⟨rfl, ?_⟩
  intro h hpos
  exact mul_neg_of_pos_of_neg hpos (sub_neg.mpr h)

/-- Witness for the amended Claim C3 at the pair `(100, 4), (50, 4)`. -/
theorem C3_no_monotonicity_check_witness :
    segVolumes [((100 : ℚ), (4 : ℚ)), ((50 : ℚ), (4 : ℚ))]
      = [(((4 : ℚ) + 4) / 2) * (50 - 100)]
    ∧ (((4 : ℚ) + 4) / 2) * (50 - 100) < 0 :=
  ⟨(C3_no_monotonicity_check 100 4 50 4).1,
   (C3_no_monotonicity_check 100 4 50 4).2 (by norm_num) (by norm_num)⟩

/-- Claim C4 counterexample: an angle of exactly 180 degrees passes the
zero-angle check unscathed — the angle resolves and the station's geometry is
constructed, so geometry construction does not fail at 180 degrees. -/
theorem C4_counterexample :
    resolveAngle (CellValue.num 180) = some 180
    ∧ (stationGeometry ⟨"0", 10, 2, 6, 1, CellValue.num 180⟩ 0).isSome = true := by
  constructor
  · decide
  · simp [stationGeometry, resolveAngle, coerceAngle]

/-- Claim C4 (amended): an angle of exactly 0 makes the station silently
skipped (`none`, no error surfaced); any nonzero numeric angle resolves to
itself (180 included); and geometry is produced exactly when the angle
resolves — there is no further failure or finiteness check. -/
theorem C4_angle_skip :
    resolveAngle (CellValue.num 0) = none
    ∧ (∀ q : ℚ, q ≠ 0 → resolveAngle (CellValue.num q) = some q)
    ∧ (∀ (r : Row) (v : ℚ),
        (stationGeometry r v).isSome = (resolveAngle r.angle).isSome) := by
  refine ⟨by decide, ?_, ?_⟩
  · intro q hq
    simp [resolveAngle, coerceAngle, hq]
  · intro r v
    rw [stationGeometry]
    cases resolveAngle r.angle <;> simp

/-- Witness for the amended Claim C4 at angles 0 and 75. -/
theorem C4_angle_skip_witness :
    resolveAngle (CellValue.num 0) = none
    ∧ resolveAngle (CellValue.num 75) = some 75 :=
  ⟨C4_angle_skip.1, C4_angle_skip.2.1 75 (by norm_num)⟩

/-- Claim C5: the finished-ground polyline is
`(-fw/2,0), (0,0), (fw/2,0), (fw/2+slope*fh, fh)`, the original-ground
polyline is `(-fw/2,0), (-fw/2+ow,0), (-fw/2+ow+h1*fh*slope, h1*fh),
(fw/2+slope*fh, fh)` with `h1 = (ac-0.5)*2`, and the filled boundary is the
original polyline forward followed by the finished polyline reversed. -/
theorem C5_profiles :
    ∀ fw fh ow ac slopeVal : ℚ,
      finishedProfile (geometryFrom fw fh ow ac slopeVal) =
        [(-fw/2, 0), (0, 0), (fw/2, 0), (fw/2 + slopeVal * fh, fh)]
      ∧ originalProfile (geometryFrom fw fh ow ac slopeVal) =
        [(-fw/2, 0), (-fw/2 + ow, 0),
         (-fw/2 + ow + ((ac - 1/2) * 2) * fh * slopeVal, ((ac - 1/2) * 2) * fh),
         (fw/2 + slopeVal * fh, fh)]
      ∧ fillProfile (geometryFrom fw fh ow ac slopeVal) =
        originalProfile (geometryFrom fw fh ow ac slopeVal)
          ++ (finishedProfile (geometryFrom fw fh ow ac slopeVal)).reverse := by
  intro fw fh ow ac s
  refine ⟨?_, ?_, ?_⟩ <;>
    simp [finishedProfile, originalProfile, fillProfile, geometryFrom,
      fillX, fillY, h1Coef, List.zip]

/-- Claim C6: chainage parsing removes every `+` character and then parses
the remainder numerically, so `"2+350"` parses to `2350` and `"1500"` to
`1500`; a remainder that is not numeric fails to parse. -/
theorem C6_chainage :
    (∀ s : String, (stripPlus s).toList = s.toList.filter (fun c => c ≠ '+'))
    ∧ (∀ s : String, parseChainage s = parseDecimal (stripPlus s))
    ∧ parseChainage "2+350" = some 2350
    ∧ parseChainage "1500" = some 1500
    ∧ parseChainage "12a" = none := by
  exact ⟨fun s => rfl, fun s => rfl, by decide, by decide, by decide⟩

/-- Claim C7 counterexample: a non-numeric `Cutting slope` cell (`"abc"`)
does not default to 75 degrees — `float()` raises, the `except` swallows it,
and the station is skipped (`none`). -/
theorem C7_counterexample :
    resolveAngle (CellValue.text "abc") ≠ some 75
    ∧ resolveAngle (CellValue.text "abc") = none := by
  exact ⟨by decide, by decide⟩

/-- Claim C7 (amended): a missing angle is defaulted to 75 degrees inside
the plotting function; a non-numeric angle text causes that station to be
skipped silently (no default and no warning); an exactly-zero angle likewise
skips only that station, the run continuing in all cases. -/
theorem C7_lenient_policy :
    resolveAngle CellValue.missing = some 75
    ∧ resolveAngle (CellValue.num 0) = none
    ∧ (∀ s : String, parseDecimal s = none →
        resolveAngle (CellValue.text s) = none) := by
  refine ⟨by decide, by decide, ?_⟩
  intro s h
  simp [resolveAngle, coerceAngle, h]

/-- Witness for the amended Claim C7 at the text cell `"n/a"`. -/
theorem C7_lenient_policy_witness :
    resolveAngle CellValue.missing = some 75
    ∧ resolveAngle (CellValue.text "n/a") = none :=
  ⟨C7_lenient_policy.1, C7_lenient_policy.2.2 "n/a" (by decide)⟩

/-- Claim C8: a run over `N ≥ 1` stations yields exactly `N - 1` adjacent-pair
segment volumes (the Volume column additionally carries a leading `0.0`
placeholder for the first station), and a single-station run has zero
segments and total volume `0`. -/
theorem C8_segment_count :
    (∀ l : List (ℚ × ℚ), 1 ≤ l.length →
      volumeList l = 0 :: segVolumes l
      ∧ (segVolumes l).length = l.length - 1
      ∧ (l.length = 1 → (volumeList l).sum = 0))
    ∧ totalVolumeOf [⟨"0", 10, 2, 6, 1/2, CellValue.num 90⟩] = some 0 := by
  constructor
  · intro l _
    refine ⟨rfl, segVolumes_length l, ?_⟩
    intro h1
    rcases List.length_eq_one.mp h1 with ⟨x, rfl⟩
    rcases x with ⟨c, a⟩
    simp [volumeList, segVolumes]
  · have h0 : parseChainage "0" = some 0 := by decide
    simp [totalVolumeOf, volumeColumn, chainagesOf, areasOf, volumeList,
      segVolumes, areaRow, h0]

/-- Witness for Claim C8 at the single station `(0, 4)`. -/
theorem C8_segment_count_witness :
    (segVolumes [((0 : ℚ), (4 : ℚ))]).length = [((0 : ℚ), (4 : ℚ))].length - 1
    ∧ (volumeList [((0 : ℚ), (4 : ℚ))]).sum = 0 :=
  ⟨(C8_segment_count.1 [(0, 4)] (by norm_num)).2.1,
   (C8_segment_count.1 [(0, 4)] (by norm_num)).2.2 (by norm_num)⟩

/-- Claim C9: for a station with `ac = 0.5`, `ow = 0` and angle 90 degrees,
the area is `0.5 * fw * fh` and the slope `1 / tan(radians(90))` is exactly
`0` (in the exact real-arithmetic model of the trigonometry). -/
theorem C9_box_cut :
    (∀ (c : String) (fw fh : ℚ) (a : CellValue),
      areaRow ⟨c, fw, fh, 0, 1/2, a⟩ = 1/2 * fw * fh)
    ∧ slope 90 = 0 := by
  constructor
  · intro c fw fh a
    simp [areaRow]
  · rw [slope]
    have h : (90 : ℝ) * Real.pi / 180 = Real.pi / 2 := by ring
    rw [h, Real.tan_pi_div_two, div_zero]

/-- Claim C10: the `Cutting slope` column influences only the plotted
geometry.  Two tables that agree outside that column have identical area
columns, volume columns and total volumes; and a station whose angle fails to
resolve (and is therefore skipped from plotting) still contributes its area
to the area column, hence to volume integration. -/
theorem C10_slope_independence :
    (∀ rows1 rows2 : List Row, rows1.map stripAngle = rows2.map stripAngle →
      areasOf rows1 = areasOf rows2
      ∧ volumeColumn rows1 = volumeColumn rows2
      ∧ totalVolumeOf rows1 = totalVolumeOf rows2)
    ∧ (∀ (r : Row) (rs : List Row), resolveAngle r.angle = none →
        areasOf (r :: rs) = areaRow r :: areasOf rs) := by
  constructor
  · intro rows1 rows2 h
    obtain ⟨ha, hc⟩ := map_stripAngle_congr h
    refine ⟨ha, ?_, ?_⟩
    · rw [volumeColumn, volumeColumn, ha, hc]
    · rw [totalVolumeOf, totalVolumeOf, volumeColumn, volumeColumn, ha, hc]
  · intro r rs _
    rfl

/-- Witness for Claim C10: two one-row tables differing only in the slope
cell (90 degrees versus the skipped 0 degrees) give the same areas, volumes
and total. -/
theorem C10_slope_independence_witness :
    (areasOf [⟨"0", 10, 2, 6, 1, CellValue.num 90⟩]
      = areasOf [⟨"0", 10, 2, 6, 1, CellValue.num 0⟩]
    ∧ volumeColumn [⟨"0", 10, 2, 6, 1, CellValue.num 90⟩]
      = volumeColumn [⟨"0", 10, 2, 6, 1, CellValue.num 0⟩]
    ∧ totalVolumeOf [⟨"0", 10, 2, 6, 1, CellValue.num 90⟩]
      = totalVolumeOf [⟨"0", 10, 2, 6, 1, CellValue.num 0⟩])
    ∧ areasOf [⟨"0", 10, 2, 6, 1, CellValue.num 0⟩]
      = areaRow ⟨"0", 10, 2, 6, 1, CellValue.num 0⟩ :: areasOf [] :=
  ⟨C10_slope_independence.1 _ _ rfl,
   C10_slope_independence.2 _ [] (by decide)⟩

end Earthwork
